import Mathlib

/-!
Verification of the reservoir-simulation and multi-objective optimisation
code of the MHA-Planificacion repository.  All numeric values are modelled
as rationals; time series are lists.  Every definition is a direct
translation of the corresponding Python function in the repository's
notebooks (the draft optimiser notebook and the teaching notebook; the two
copies of `res_sim` are line-for-line identical).  Randomness
(`np.random.uniform`) is modelled by passing the drawn initial population
explicitly, and the notebooks' global variables are explicit parameters.
-/

namespace MHA

/-- One iteration of the `res_sim` loop.  Given current storage `s`, the
step's inflow `i`, evaporation `e`, and the candidate supply value `c`
read from the supply array at index `t`, it performs the source's sequence
of conditional assignments and returns `(env_t, supply_t, spill_t, s_next)`.
The entry `env_t` starts from `env_min` (the array is initialised to
`env_min`) and `spill_t` starts from `0`; the two successive `if`s on
`env` and on `supply` are kept in source order, each one reading the value
left by the previous assignment. -/
def res_step (s_max env_min s i e c : ℚ) : ℚ × ℚ × ℚ × ℚ :=
  let env1 := if s + i - e ≤ 0 then 0 else env_min
  let env2 := if env1 ≥ s + i - e then s + i - e else env1
  let sup1 := if s + i - e - env2 ≤ 0 then 0 else c
  let sup2 := if sup1 ≥ s + i - e - env2 then s + i - e - env2 else sup1
  let spl  := if s + i - e - env2 - sup2 > s_max then s + i - e - env2 - sup2 - s_max else 0
  (env2, sup2, spl, s + i - e - env2 - spl - sup2)

/-- The `for t in np.arange(T)` loop of `res_sim`, processing the zipped
`(inflow[t], evap[t], supply[t])` triples for `t = 0 .. T-1` with current
storage `s`.  Returns the storage trace (`T+1` entries, first entry `s`),
the environmental-flow series, the spill series and the realized-supply
series.  The source mutates the `supply` array in place, but index `t` is
read before being overwritten and never revisited, so the realized-supply
list below is exactly the content of that array when the loop ends. -/
def simLoop (s_max env_min : ℚ) (s : ℚ) :
    List (ℚ × ℚ × ℚ) → List ℚ × List ℚ × List ℚ × List ℚ
  | [] => ([s], [], [], [])
  | (i, e, c) :: rest =>
    let r := res_step s_max env_min s i e c
    let p := simLoop s_max env_min r.2.2.2 rest
    (s :: p.1, r.1 :: p.2.1, r.2.2.1 :: p.2.2.1, r.2.1 :: p.2.2.2)

/-- Output bundle of `res_sim`: the tuple `s, env, spill, supply` the
Python function returns. -/
structure SimOut where
  s : List ℚ
  env : List ℚ
  spill : List ℚ
  supply : List ℚ
deriving DecidableEq

/-- Translation of `res_sim(inflow, evap, demand, s_0, s_max, env_min,
supply)`: the single-reservoir water-balance simulator.  The `demand`
argument is accepted but unused by the loop, exactly as in the source. -/
def res_sim (inflow evap demand : List ℚ) (s_0 s_max env_min : ℚ)
    (supply : List ℚ) : SimOut :=
  let _ := demand
  let p := simLoop s_max env_min s_0 (inflow.zip (evap.zip supply))
  ⟨p.1, p.2.1, p.2.2.1, p.2.2.2⟩

/-- Content of the caller's `supply` array after `res_sim` returns: the
source assigns `supply[t] = ...` through its argument, so the call mutates
the very array the caller passed in and returns that same array as its
fourth output.  In this pure embedding the post-call content of the
argument is therefore the realized-supply output of the simulation. -/
def res_sim_supplyArgAfter (inflow evap demand : List ℚ)
    (s_0 s_max env_min : ℚ) (supply : List ℚ) : List ℚ :=
  (res_sim inflow evap demand s_0 s_max env_min supply).supply

/-- Arithmetic mean (`np.mean`) of a list of rationals. -/
def mean (l : List ℚ) : ℚ := l.sum / l.length

/-- Translation of `MSV_func(s, s_min)` from the draft optimiser notebook:
`np.mean(np.abs(np.maximum(s_min - s, 0)))`. -/
def MSV_func (s : List ℚ) (s_min : ℚ) : ℚ :=
  mean (s.map (fun x => |max (s_min - x) 0|))

/-- Translation of `SD_func(supply, demand)` from the draft optimiser
notebook: `np.mean(np.maximum(demand - supply, 0) ** 2)`, the elementwise
deficit clamped at 0, squared, then averaged. -/
def SD_func (supply demand : List ℚ) : ℚ :=
  mean ((demand.zip supply).map (fun p => (max (p.1 - p.2) 0) ^ 2))

/-- Translation of `SD_func(supply, demand)` from the teaching notebook,
whose loop body is `sd[t] = np.max(demand[t] - supply[t], 0) ** 2`.  The
second argument of `np.max` is the *axis*, not a second operand, and
reducing a 0-d array over axis 0 returns the scalar unchanged (the
notebook's recorded optimisation runs execute this function thousands of
times without error), so the deficit is squared without being clamped
at 0. -/
def SD_func_loop (supply demand : List ℚ) : ℚ :=
  mean ((demand.zip supply).map (fun p => (p.1 - p.2) ^ 2))

/-- Translation of `reliability(supply, demand)` from the teaching
notebook: the mean of the failure indicators `x[t] = 0` if
`supply[t] >= demand[t]` else `1`. -/
def reliability (supply demand : List ℚ) : ℚ :=
  mean ((supply.zip demand).map (fun p => if p.1 ≥ p.2 then (0 : ℚ) else 1))

/-- Translation of `dominates(obj1, obj2)` from the draft optimiser
notebook: `np.all(obj1 <= obj2) and np.any(obj1 < obj2)` for the
2-dimensional objective vectors used there. -/
def dominates (obj1 obj2 : ℚ × ℚ) : Bool :=
  if (obj1.1 ≤ obj2.1 ∧ obj1.2 ≤ obj2.2) ∧ (obj1.1 < obj2.1 ∨ obj1.2 < obj2.2)
  then true else false

/-- The domination count computed by the double loop in
`parents_selection`: the number of population members whose objective
vector dominates `o`.  The double loop adds one to `domination_count[j]`
for every pair with `dominates(objectives[i], objectives[j])`, `i ≠ j`
(the `elif` branch covers `i > j`); since `dominates` is irreflexive this
equals the count over the whole list. -/
def domination_count (objectives : List (ℚ × ℚ)) (o : ℚ × ℚ) : ℕ :=
  (objectives.filter (fun o2 => dominates o2 o)).length

/-- Translation of `parents_selection(objectives, population)`.
`parent_1` is `population[np.where(domination_count == 0)[0][0]]` and
`parent_2` uses the first index of count `1`; `np.where(...)[0][0]` raises
`IndexError` when no such index exists, modelled here by `none`
(`List.findIdx` returns the list length when nothing matches, making the
lookup fail for the equal-length populations the notebook uses). -/
def parents_selection (objectives : List (ℚ × ℚ)) (population : List (List ℚ)) :
    Option (List ℚ × List ℚ) :=
  let counts := objectives.map (fun o => domination_count objectives o)
  match population.get? (counts.findIdx (fun c => c == 0)),
        population.get? (counts.findIdx (fun c => c == 1)) with
  | some p1, some p2 => some (p1, p2)
  | _, _ => none

/-- Translation of `crossover(parent_1, parent_2)` from the draft
optimiser notebook.  `np.arange(0.25, 1, 0.25)` is `[0.25, 0.5, 0.75]`
(all exactly representable); for each of these the crossover point is
`int(num_genes * r)` and the two complementary splices are appended to the
stack that starts with the two parents, giving eight rows in total. -/
def crossover (parent_1 parent_2 : List ℚ) : List (List ℚ) :=
  let num_genes := parent_1.length
  let point := fun (r : ℚ) => ((num_genes : ℚ) * r).floor.toNat
  let child_1 := fun (r : ℚ) => parent_1.take (point r) ++ parent_2.drop (point r)
  let child_2 := fun (r : ℚ) => parent_2.take (point r) ++ parent_1.drop (point r)
  [parent_1, parent_2,
   child_1 (1/4), child_2 (1/4),
   child_1 (1/2), child_2 (1/2),
   child_1 (3/4), child_2 (3/4)]

/-- Translation of `fit_func(pop_size, population)` from the draft
optimiser notebook.  For each of the first `pop_size` members:
`supply = population[i] * demand` (elementwise), the reservoir is
simulated, and the objective vector is
`(MSV_func(s[:-1], s_min), SD_func(supply, demand))` where `supply` is the
realized supply returned by `res_sim` (the call rebinds the name to the
mutated array).  The notebook's global series and scalars are passed
explicitly. -/
def fit_func (inflow evap demand : List ℚ) (s_0 s_max s_min env_min : ℚ)
    (pop_size : ℕ) (population : List (List ℚ)) : List (ℚ × ℚ) :=
  (population.take pop_size).map (fun genes =>
    let supply := (genes.zip demand).map (fun p => p.1 * p.2)
    let out := res_sim inflow evap demand s_0 s_max env_min supply
    (MSV_func out.s.dropLast s_min, SD_func out.supply demand))

/-- The generational loop of `gen_opt`: each generation evaluates the
population, selects the two parents and replaces the population with
`crossover(parent_1, parent_2)`.  `lastObjs` carries the objectives of the
most recent evaluation (the Python local `objectives` returned at the
end; with zero generations it was never assigned); a failed parent lookup
(the source's `IndexError`) aborts with `none`. -/
def gen_opt_go (inflow evap demand : List ℚ) (s_0 s_max s_min env_min : ℚ)
    (pop_size : ℕ) :
    ℕ → List (List ℚ) → Option (List (ℚ × ℚ)) →
      Option (List (List ℚ) × List (ℚ × ℚ))
  | 0, population, lastObjs => lastObjs.map (fun o => (population, o))
  | g + 1, population, _ =>
    let objectives := fit_func inflow evap demand s_0 s_max s_min env_min
      pop_size population
    match parents_selection objectives population with
    | none => none
    | some (p1, p2) =>
      gen_opt_go inflow evap demand s_0 s_max s_min env_min pop_size g
        (crossover p1 p2) (some objectives)

/-- Translation of `gen_opt(max_generations)` from the draft optimiser
notebook.  The initial population, drawn in the source by
`np.random.uniform(0, 1, (pop_size, num_weeks))`, is modelled as the
explicit argument `population0`; the notebook globals are explicit
parameters.  The source has no crossover- or mutation-probability
parameter: every generation is replaced by the crossover stack. -/
def gen_opt (inflow evap demand : List ℚ) (s_0 s_max s_min env_min : ℚ)
    (pop_size : ℕ) (max_generations : ℕ) (population0 : List (List ℚ)) :
    Option (List (List ℚ) × List (ℚ × ℚ)) :=
  gen_opt_go inflow evap demand s_0 s_max s_min env_min pop_size
    max_generations population0 none

/-- The notebooks' inflow forecast series (ML/week). -/
def inflow : List ℚ := [15, 17, 19, 11, 9, 4, 3, 8]

/-- The notebooks' evaporation forecast series (ML/week). -/
def evap : List ℚ := [1, 1, 2, 2, 2, 2, 2, 3]

/-- The notebooks' demand forecast series (ML/week). -/
def demand : List ℚ := [13, 13, 17, 18, 20, 22, 25, 26]

/-- A concrete initial population of size 4 over the 8-week horizon
(standing in for the `np.random.uniform(0, 1, (4, 8))` draw): four
constant gene rows with levels 0.1, 0.2, 0.3, 0.4. -/
def P0 : List (List ℚ) :=
  [[1/10, 1/10, 1/10, 1/10, 1/10, 1/10, 1/10, 1/10],
   [1/5, 1/5, 1/5, 1/5, 1/5, 1/5, 1/5, 1/5],
   [3/10, 3/10, 3/10, 3/10, 3/10, 3/10, 3/10, 3/10],
   [2/5, 2/5, 2/5, 2/5, 2/5, 2/5, 2/5, 2/5]]

/-- The objective vectors `fit_func` computes for `P0` with the draft
notebook's globals. -/
def objs0 : List (ℚ × ℚ) :=
  [(0, 7938/25), (0, 6272/25), (0, 4802/25), (0, 3528/25)]

/-- The population `crossover` produces from the two parents selected out
of `P0`: the parents followed by the six spliced children. -/
def pop1 : List (List ℚ) :=
  [[2/5, 2/5, 2/5, 2/5, 2/5, 2/5, 2/5, 2/5],
   [3/10, 3/10, 3/10, 3/10, 3/10, 3/10, 3/10, 3/10],
   [2/5, 2/5, 3/10, 3/10, 3/10, 3/10, 3/10, 3/10],
   [3/10, 3/10, 2/5, 2/5, 2/5, 2/5, 2/5, 2/5],
   [2/5, 2/5, 2/5, 2/5, 3/10, 3/10, 3/10, 3/10],
   [3/10, 3/10, 3/10, 3/10, 2/5, 2/5, 2/5, 2/5],
   [2/5, 2/5, 2/5, 2/5, 2/5, 2/5, 3/10, 3/10],
   [3/10, 3/10, 3/10, 3/10, 3/10, 3/10, 2/5, 2/5]]

-- ----------------------------------------------------------------------
-- Helper lemmas about one simulation step
-- ----------------------------------------------------------------------

-- The realized supply of a step is nonnegative and bounded by the
-- candidate value.
lemma res_step_supply_bounds (s_max env_min s i e c : ℚ) (hc : 0 ≤ c) :
    0 ≤ (res_step s_max env_min s i e c).2.1 ∧
      (res_step s_max env_min s i e c).2.1 ≤ c := by
  simp only [res_step]
  split_ifs <;> constructor <;> linarith

-- The spill of a step is nonnegative.
lemma res_step_spill_nonneg (s_max env_min s i e c : ℚ) :
    0 ≤ (res_step s_max env_min s i e c).2.2.1 := by
  simp only [res_step]
  split_ifs <;> linarith

-- The next storage stays within the physical bounds whatever the current
-- storage and the candidate are: the water remaining after environmental
-- release and supply is nonnegative by the saturating assignments, and
-- the spill caps it at capacity.
lemma res_step_next_bounds (s_max env_min s i e c : ℚ) (hmax : 0 ≤ s_max) :
    0 ≤ (res_step s_max env_min s i e c).2.2.2 ∧
      (res_step s_max env_min s i e c).2.2.2 ≤ s_max := by
  simp only [res_step]
  split_ifs <;> constructor <;> linarith

-- ----------------------------------------------------------------------
-- Helper lemmas about the simulation loop
-- ----------------------------------------------------------------------

-- Every entry of the storage trace stays in the interval determined by
-- the initial storage bounds.
lemma simLoop_storage_bounds (s_max env_min : ℚ) (l : List (ℚ × ℚ × ℚ)) :
    ∀ s : ℚ, 0 ≤ s → s ≤ s_max →
      ∀ y ∈ (simLoop s_max env_min s l).1, 0 ≤ y ∧ y ≤ s_max := by
  induction l with
  | nil =>
    intro s hs0 hs1 y hy
    simp only [simLoop, List.mem_singleton] at hy
    exact hy ▸ ⟨hs0, hs1⟩
  | cons hd tl ih =>
    obtain ⟨i, e, c⟩ := hd
    intro s hs0 hs1 y hy
    have hmax : (0:ℚ) ≤ s_max := le_trans hs0 hs1
    have hnext := res_step_next_bounds s_max env_min s i e c hmax
    simp only [simLoop, List.mem_cons] at hy
    rcases hy with rfl | hy
    · exact ⟨hs0, hs1⟩
    · exact ih _ hnext.1 hnext.2 y hy

-- Every spill entry is nonnegative.
lemma simLoop_spill_nonneg (s_max env_min : ℚ) (l : List (ℚ × ℚ × ℚ)) :
    ∀ s : ℚ, ∀ y ∈ (simLoop s_max env_min s l).2.2.1, 0 ≤ y := by
  induction l with
  | nil => intro s y hy; simp [simLoop] at hy
  | cons hd tl ih =>
    obtain ⟨i, e, c⟩ := hd
    intro s y hy
    simp only [simLoop, List.mem_cons] at hy
    rcases hy with rfl | hy
    · exact res_step_spill_nonneg s_max env_min s i e c
    · exact ih _ y hy

-- Each realized supply entry is nonnegative and bounded by the
-- corresponding candidate entry.
lemma simLoop_supply_forall2 (s_max env_min : ℚ) (l : List (ℚ × ℚ × ℚ)) :
    ∀ s : ℚ, (∀ x ∈ l, 0 ≤ x.2.2) →
      List.Forall₂ (fun r c => 0 ≤ r ∧ r ≤ c)
        (simLoop s_max env_min s l).2.2.2 (l.map (fun x => x.2.2)) := by
  induction l with
  | nil => intro s _; simp [simLoop]
  | cons hd tl ih =>
    obtain ⟨i, e, c⟩ := hd
    intro s hc
    have hcHd : (0:ℚ) ≤ c := hc (i, e, c) (List.mem_cons_self _ _)
    simp only [simLoop, List.map_cons]
    exact List.Forall₂.cons (res_step_supply_bounds s_max env_min s i e c hcHd)
      (ih _ (fun x hx => hc x (List.mem_cons_of_mem _ hx)))

-- ----------------------------------------------------------------------
-- Helper lemmas about zipped series
-- ----------------------------------------------------------------------

-- Projecting the third component of the zipped triples recovers the
-- third series when the lengths agree.
lemma zip_zip_map_third (l1 l2 l3 : List ℚ) (h1 : l2.length = l1.length)
    (h2 : l3.length = l1.length) :
    (l1.zip (l2.zip l3)).map (fun x => x.2.2) = l3 := by
  induction l1 generalizing l2 l3 with
  | nil =>
    cases l3 with
    | nil => simp
    | cons c t3 => simp at h2
  | cons a t1 ih =>
    cases l2 with
    | nil => simp at h1
    | cons b t2 =>
      cases l3 with
      | nil => simp at h2
      | cons c t3 =>
        simp only [List.zip_cons_cons, List.map_cons, List.cons.injEq]
        exact ⟨trivial, ih t2 t3 (by simpa using h1) (by simpa using h2)⟩

-- A member of the zipped triples has its third component in the third
-- series.
lemma third_mem_of_mem_zip {l1 l2 l3 : List ℚ} {x : ℚ × ℚ × ℚ}
    (h : x ∈ l1.zip (l2.zip l3)) : x.2.2 ∈ l3 := by
  obtain ⟨-, h2⟩ := List.of_mem_zip h
  obtain ⟨-, h3⟩ := List.of_mem_zip h2
  exact h3

-- ----------------------------------------------------------------------
-- Helper lemmas about means of lists
-- ----------------------------------------------------------------------

-- A sum of nonnegative rationals vanishes exactly when every term does.
lemma sum_eq_zero_iff_of_nonneg {l : List ℚ} (h : ∀ x ∈ l, 0 ≤ x) :
    l.sum = 0 ↔ ∀ x ∈ l, x = 0 := by
  induction l with
  | nil => simp
  | cons a t ih =>
    have ha : 0 ≤ a := h a (List.mem_cons_self _ _)
    have ht : ∀ x ∈ t, 0 ≤ x := fun x hx => h x (List.mem_cons_of_mem _ hx)
    have hts : 0 ≤ t.sum := List.sum_nonneg ht
    simp only [List.sum_cons, List.mem_cons]
    constructor
    · intro h0
      have ha0 : a = 0 := by linarith
      have hs0 : t.sum = 0 := by linarith
      exact fun x hx => hx.elim (fun hxa => hxa ▸ ha0) (fun hxt => (ih ht).mp hs0 x hxt)
    · intro hall
      have ha0 : a = 0 := hall a (Or.inl rfl)
      have hs0 : t.sum = 0 := (ih ht).mpr (fun x hx => hall x (Or.inr hx))
      rw [ha0, hs0, add_zero]

lemma mean_nonneg {l : List ℚ} (h : ∀ x ∈ l, 0 ≤ x) : 0 ≤ mean l := by
  unfold mean
  apply div_nonneg (List.sum_nonneg h)
  exact_mod_cast Nat.zero_le _

lemma sum_le_length_of_le_one {l : List ℚ} (h : ∀ x ∈ l, x ≤ 1) :
    l.sum ≤ l.length := by
  induction l with
  | nil => simp
  | cons a t ih =>
    have ha : a ≤ 1 := h a (List.mem_cons_self _ _)
    have ht := ih (fun x hx => h x (List.mem_cons_of_mem _ hx))
    simp only [List.sum_cons, List.length_cons]
    push_cast
    linarith

lemma mean_le_one {l : List ℚ} (h : ∀ x ∈ l, x ≤ 1) : mean l ≤ 1 := by
  unfold mean
  rcases Nat.eq_zero_or_pos l.length with h0 | h0
  · simp [h0]
  · rw [div_le_one (by exact_mod_cast h0)]
    exact sum_le_length_of_le_one h

lemma mean_eq_zero_iff {l : List ℚ} (hnn : ∀ x ∈ l, 0 ≤ x) (hne : l ≠ []) :
    mean l = 0 ↔ ∀ x ∈ l, x = 0 := by
  unfold mean
  have hlen : (0:ℚ) < l.length := by
    have : 0 < l.length := List.length_pos.mpr hne
    exact_mod_cast this
  rw [div_eq_zero_iff]
  constructor
  · rintro (h | h)
    · exact (sum_eq_zero_iff_of_nonneg hnn).mp h
    · exact absurd h (by positivity)
  · intro h
    exact Or.inl ((sum_eq_zero_iff_of_nonneg hnn).mpr h)

-- ----------------------------------------------------------------------
-- Helper lemmas about the dominance relation
-- ----------------------------------------------------------------------

lemma dominates_eq_true_iff (a b : ℚ × ℚ) :
    dominates a b = true ↔ (a.1 ≤ b.1 ∧ a.2 ≤ b.2) ∧ (a.1 < b.1 ∨ a.2 < b.2) := by
  unfold dominates
  split_ifs with h <;> simp [h]

lemma dominates_self_eq_false (a : ℚ × ℚ) : dominates a a = false := by
  unfold dominates
  split_ifs with h
  · rcases h.2 with h2 | h2 <;> exact absurd h2 (lt_irrefl _)
  · rfl

lemma dominates_asymm_false {a b : ℚ × ℚ} (h : dominates a b = true) :
    dominates b a = false := by
  rw [dominates_eq_true_iff] at h
  unfold dominates
  split_ifs with h2
  · obtain ⟨⟨h1a, h1b⟩, h1c⟩ := h
    obtain ⟨⟨h2a, h2b⟩, h2c⟩ := h2
    rcases h1c with hc | hc <;> rcases h2c with hc2 | hc2 <;> linarith
  · rfl

-- A dominating vector has strictly smaller objective sum, so a vector of
-- minimal sum is dominated by nobody.
lemma dominates_sum_lt {a b : ℚ × ℚ} (h : dominates a b = true) :
    a.1 + a.2 < b.1 + b.2 := by
  rw [dominates_eq_true_iff] at h
  obtain ⟨⟨h1, h2⟩, h3⟩ := h
  rcases h3 with h3 | h3 <;> linarith

lemma exists_min_sum (l : List (ℚ × ℚ)) (hne : l ≠ []) :
    ∃ o ∈ l, ∀ o2 ∈ l, o.1 + o.2 ≤ o2.1 + o2.2 := by
  induction l with
  | nil => exact absurd rfl hne
  | cons a t ih =>
    cases t with
    | nil =>
      refine ⟨a, List.mem_cons_self _ _, ?_⟩
      intro o2 ho2
      simp only [List.mem_singleton] at ho2
      subst ho2; exact le_refl _
    | cons b t2 =>
      obtain ⟨m, hm, hmin⟩ := ih (List.cons_ne_nil b t2)
      rcases le_total (a.1 + a.2) (m.1 + m.2) with hle | hle
      · refine ⟨a, List.mem_cons_self _ _, ?_⟩
        intro o2 ho2
        rcases List.mem_cons.mp ho2 with rfl | ho2
        · exact le_refl _
        · exact le_trans hle (hmin o2 ho2)
      · refine ⟨m, List.mem_cons_of_mem _ hm, ?_⟩
        intro o2 ho2
        rcases List.mem_cons.mp ho2 with rfl | ho2
        · exact hle
        · exact hmin o2 ho2

lemma exists_domination_count_zero (l : List (ℚ × ℚ)) (hne : l ≠ []) :
    ∃ o ∈ l, domination_count l o = 0 := by
  obtain ⟨o, ho, hmin⟩ := exists_min_sum l hne
  refine ⟨o, ho, ?_⟩
  unfold domination_count
  rw [List.length_eq_zero, List.filter_eq_nil_iff]
  intro a ha hda
  exact absurd (hmin a ha) (not_le.mpr (dominates_sum_lt hda))

-- ----------------------------------------------------------------------
-- Helper lemmas evaluating the concrete scenarios
-- ----------------------------------------------------------------------

-- The teaching notebook's end-to-end scenario: candidate releases equal
-- to the demand, initial storage 80, capacity 150, environmental flow 2.
lemma scenario_run : res_sim inflow evap demand 80 150 2 demand =
    ⟨[80, 79, 80, 78, 67, 52, 30, 4, 0], [2, 2, 2, 2, 2, 2, 2, 2],
     [0, 0, 0, 0, 0, 0, 0, 0], [13, 13, 17, 18, 20, 22, 25, 7]⟩ := by
  norm_num [res_sim, simLoop, res_step, inflow, evap, demand]

lemma scenario_rel : reliability [13, 13, 17, 18, 20, 22, 25, 7] demand = 1/8 := by
  norm_num [reliability, mean, demand]

lemma scenario_sd : SD_func_loop [13, 13, 17, 18, 20, 22, 25, 7] demand = 361/8 := by
  norm_num [SD_func_loop, mean, demand]

-- Objective vectors of the concrete population `P0` with the draft
-- notebook's globals: all four candidates keep the storage above the
-- 30 ML threshold, so the first objective is 0 and the second is the
-- squared deficit of the unclamped releases, strictly decreasing in the
-- gene level.
set_option maxHeartbeats 2000000 in
lemma fit0 : fit_func inflow evap demand 80 150 30 2 4 P0 = objs0 := by
  norm_num [fit_func, P0, objs0, res_sim, simLoop, res_step, MSV_func, SD_func,
    mean, inflow, evap, demand]

-- The domination counts of `objs0` are `[3, 2, 1, 0]`, so the selected
-- parents are the fourth and the third row of `P0`.
lemma sel0 : parents_selection objs0 P0 =
    some ([2/5, 2/5, 2/5, 2/5, 2/5, 2/5, 2/5, 2/5],
          [3/10, 3/10, 3/10, 3/10, 3/10, 3/10, 3/10, 3/10]) := by
  norm_num [parents_selection, domination_count, dominates, P0, objs0,
    List.filter, List.findIdx, List.findIdx.go]
  rfl

-- The crossover stack of the two selected parents.
lemma cross0 : crossover
    [2/5, 2/5, 2/5, 2/5, 2/5, (2:ℚ)/5, 2/5, 2/5]
    [3/10, 3/10, 3/10, 3/10, 3/10, 3/10, 3/10, 3/10] = pop1 := by
  norm_num [crossover, Rat.floor, pop1]
  exact ⟨rfl, rfl, rfl, rfl, rfl, rfl⟩

-- One full generation of the optimiser on `P0`.
lemma gen_opt_run : gen_opt inflow evap demand 80 150 30 2 4 1 P0 =
    some (pop1, objs0) := by
  have hgo : gen_opt inflow evap demand 80 150 30 2 4 1 P0 =
      match parents_selection (fit_func inflow evap demand 80 150 30 2 4 P0) P0 with
      | none => none
      | some (p1, p2) =>
        gen_opt_go inflow evap demand 80 150 30 2 4 0 (crossover p1 p2)
          (some (fit_func inflow evap demand 80 150 30 2 4 P0)) := rfl
  rw [hgo, fit0, sel0]
  show gen_opt_go inflow evap demand 80 150 30 2 4 0
    (crossover [2/5, 2/5, 2/5, 2/5, 2/5, 2/5, 2/5, 2/5]
      [3/10, 3/10, 3/10, 3/10, 3/10, 3/10, 3/10, 3/10]) (some objs0) = some (pop1, objs0)
  rw [cross0]
  rfl

-- ----------------------------------------------------------------------
-- Claim theorems
-- ----------------------------------------------------------------------

/-- C1: for every run of `res_sim` with equal-length nonnegative inflow,
evaporation and candidate supply series and `0 ≤ s_0 ≤ s_max`, every entry
of the returned storage sequence (all `T+1` entries) lies in
`[0, s_max]`. -/
theorem res_sim_storage_in_bounds
    (inflow evap demand supply : List ℚ) (s_0 s_max env_min : ℚ)
    (hle : evap.length = inflow.length) (hls : supply.length = inflow.length)
    (hin : ∀ x ∈ inflow, 0 ≤ x) (hev : ∀ x ∈ evap, 0 ≤ x)
    (hsu : ∀ x ∈ supply, 0 ≤ x)
    (h0 : 0 ≤ s_0) (h1 : s_0 ≤ s_max) :
    ∀ y ∈ (res_sim inflow evap demand s_0 s_max env_min supply).s,
      0 ≤ y ∧ y ≤ s_max := by
  intro y hy
  exact simLoop_storage_bounds s_max env_min (inflow.zip (evap.zip supply))
    s_0 h0 h1 y hy

/-- C1 witness: in the teaching notebook's scenario the storage entry 79
of the trace is within `[0, 150]`. -/
theorem res_sim_storage_in_bounds_witness : 0 ≤ (79:ℚ) ∧ (79:ℚ) ≤ 150 :=
  res_sim_storage_in_bounds inflow evap demand demand 80 150 2
    rfl rfl
    (by norm_num [inflow]) (by norm_num [evap]) (by norm_num [demand])
    (by norm_num) (by norm_num)
    79 (by rw [scenario_run]; norm_num)

/-- C2: the claim states that the environmental flow is never negative
and is 0 together with the supply whenever the available water
`a = storage + inflow − evap` is `≤ 0`.  The code violates it: with
`s_0 = 0`, `inflow = [0]`, `evap = [1]` the available water is `−1`, the
first conditional sets `env[0] = 0` but the second immediately overwrites
it with `env[0] = a = −1`, a negative environmental flow (the realized
supply is 0 as claimed). -/
theorem res_sim_env_negative_when_deficit :
    (res_sim [0] [1] [5] 0 150 2 [0]).env = [-1] ∧
      (res_sim [0] [1] [5] 0 150 2 [0]).supply = [0] := by
  constructor <;> norm_num [res_sim, simLoop, res_step]

/-- C3: for every run of `res_sim` with equal-length series and
nonnegative candidate supply, every spill entry is `≥ 0` and every
realized supply entry `r` satisfies `0 ≤ r ≤ c` for the corresponding
candidate entry `c` (the simulator only ever reduces the requested
release). -/
theorem res_sim_release_bounds
    (inflow evap demand supply : List ℚ) (s_0 s_max env_min : ℚ)
    (hle : evap.length = inflow.length) (hls : supply.length = inflow.length)
    (hsu : ∀ x ∈ supply, 0 ≤ x) :
    (∀ y ∈ (res_sim inflow evap demand s_0 s_max env_min supply).spill, 0 ≤ y) ∧
      List.Forall₂ (fun r c => 0 ≤ r ∧ r ≤ c)
        (res_sim inflow evap demand s_0 s_max env_min supply).supply supply := by
  constructor
  · intro y hy
    exact simLoop_spill_nonneg s_max env_min (inflow.zip (evap.zip supply)) s_0 y hy
  · have h := simLoop_supply_forall2 s_max env_min (inflow.zip (evap.zip supply))
      s_0 (fun x hx => hsu _ (third_mem_of_mem_zip hx))
    rwa [zip_zip_map_third inflow evap supply hle hls] at h

/-- C3 witness: in the teaching notebook's scenario the realized supply is
pointwise within `[0, candidate]` for the candidate equal to demand. -/
theorem res_sim_release_bounds_witness :
    List.Forall₂ (fun r c => 0 ≤ r ∧ r ≤ c)
      (res_sim inflow evap demand 80 150 2 demand).supply demand :=
  (res_sim_release_bounds inflow evap demand demand 80 150 2
    rfl rfl (by norm_num [demand])).2

/-- C4 counterexample: in the end-to-end scenario (inflow, evaporation and
demand as in the notebooks, `s_0 = 80`, `s_max = 150`, `env_min = 2`,
candidate supply equal to demand) the claim "Reliability = 0 and Squared
Deficit = 0" is false: in week 8 the available water only allows a release
of 7 against a demand of 26. -/
theorem scenario_objectives_nonzero :
    ¬(reliability (res_sim inflow evap demand 80 150 2 demand).supply demand = 0 ∧
      SD_func_loop (res_sim inflow evap demand 80 150 2 demand).supply demand = 0) := by
  rw [scenario_run]
  rintro ⟨h, -⟩
  rw [scenario_rel] at h
  norm_num at h

/-- C4 amended: in the end-to-end scenario the simulated trajectory yields
Reliability `1/8` and Squared Deficit `361/8` (the only failure is week 8,
where the supply is clamped to 7 below the demand 26), with the storage
evolving as `s[1] = 79` and `s[2] = 80` as claimed. -/
theorem scenario_objective_values :
    reliability (res_sim inflow evap demand 80 150 2 demand).supply demand = 1/8 ∧
      SD_func_loop (res_sim inflow evap demand 80 150 2 demand).supply demand = 361/8 ∧
      (res_sim inflow evap demand 80 150 2 demand).s.getD 1 0 = 79 ∧
      (res_sim inflow evap demand 80 150 2 demand).s.getD 2 0 = 80 := by
  rw [scenario_run]
  exact ⟨scenario_rel, scenario_sd, rfl, rfl⟩

/-- C5 counterexample: the claim says every `SD_func` in the repository
returns the mean of the clamped squared deficits, vanishing whenever the
supply meets the demand everywhere; the teaching notebook's loop version
violates it on `supply = [1]`, `demand = [0]`: the supply exceeds the
demand yet the result is `1`, not `0` (the draft notebook's vectorised
version does return `0` there). -/
theorem SD_func_loop_not_clamped :
    SD_func_loop [1] [0] = 1 ∧ SD_func_loop [1] [0] ≠ 0 ∧ SD_func [1] [0] = 0 := by
  refine ⟨by norm_num [SD_func_loop, mean], ?_, by norm_num [SD_func, mean]⟩
  norm_num [SD_func_loop, mean]

/-- C5 amended: for nonempty equal-length series, the draft notebook's
`SD_func` returns the mean of `max(demand − supply, 0)²`, is nonnegative,
and vanishes iff the supply meets the demand at every step; the teaching
notebook's `SD_func` squares the raw difference without clamping (its
`np.max(·, 0)` call is an axis-0 reduction of a 0-d array, the identity),
so it is nonnegative but vanishes iff supply equals demand at every
step. -/
theorem SD_func_variants_spec (supply demand : List ℚ)
    (hlen : supply.length = demand.length) (hne : demand ≠ []) :
    (0 ≤ SD_func supply demand ∧
      (SD_func supply demand = 0 ↔ ∀ p ∈ demand.zip supply, p.1 ≤ p.2)) ∧
    (0 ≤ SD_func_loop supply demand ∧
      (SD_func_loop supply demand = 0 ↔ ∀ p ∈ demand.zip supply, p.1 = p.2)) := by
  have hznil : demand.zip supply ≠ [] := by
    intro h
    have hl := congrArg List.length h
    rw [List.length_zip, ← hlen, min_self] at hl
    exact hne (List.eq_nil_of_length_eq_zero (by rw [← hlen]; simpa using hl))
  constructor
  · have hnn : ∀ x ∈ (demand.zip supply).map
        (fun p => (max (p.1 - p.2) 0) ^ 2), 0 ≤ x := by
      intro x hx
      rw [List.mem_map] at hx
      obtain ⟨p, -, rfl⟩ := hx
      positivity
    refine ⟨mean_nonneg hnn, ?_⟩
    unfold SD_func
    rw [mean_eq_zero_iff hnn (by simpa using hznil)]
    constructor
    · intro h p hp
      have h0 := h _ (List.mem_map_of_mem _ hp)
      have hmax : max (p.1 - p.2) 0 = 0 := by
        have := pow_eq_zero_iff (n := 2) (by norm_num) |>.mp h0
        exact this
      have : p.1 - p.2 ≤ 0 := max_eq_right_iff.mp hmax
      linarith
    · intro h x hx
      rw [List.mem_map] at hx
      obtain ⟨p, hp, rfl⟩ := hx
      have : p.1 - p.2 ≤ 0 := by have := h p hp; linarith
      rw [max_eq_right this]
      norm_num
  · have hnn : ∀ x ∈ (demand.zip supply).map
        (fun p => (p.1 - p.2) ^ 2), 0 ≤ x := by
      intro x hx
      rw [List.mem_map] at hx
      obtain ⟨p, -, rfl⟩ := hx
      positivity
    refine ⟨mean_nonneg hnn, ?_⟩
    unfold SD_func_loop
    rw [mean_eq_zero_iff hnn (by simpa using hznil)]
    constructor
    · intro h p hp
      have h0 := h _ (List.mem_map_of_mem _ hp)
      have := pow_eq_zero_iff (n := 2) (by norm_num) |>.mp h0
      have := sub_eq_zero.mp this
      linarith [this]
    · intro h x hx
      rw [List.mem_map] at hx
      obtain ⟨p, hp, rfl⟩ := hx
      rw [h p hp]
      ring

/-- C5 witness: the amended statement applied to `supply = [3]`,
`demand = [2]`. -/
theorem SD_func_variants_spec_witness : 0 ≤ SD_func [3] [2] :=
  (SD_func_variants_spec [3] [2] rfl (by simp)).1.1

/-- C6: for every nonempty pair of equal-length supply and demand series,
`reliability` lies in `[0, 1]` and vanishes iff the supply meets the
demand at every time step. -/
theorem reliability_spec (supply demand : List ℚ)
    (hlen : supply.length = demand.length) (hne : supply ≠ []) :
    (0 ≤ reliability supply demand ∧ reliability supply demand ≤ 1) ∧
      (reliability supply demand = 0 ↔ ∀ p ∈ supply.zip demand, p.2 ≤ p.1) := by
  have hznil : supply.zip demand ≠ [] := by
    intro h
    have hl := congrArg List.length h
    rw [List.length_zip, hlen, min_self] at hl
    exact hne (List.eq_nil_of_length_eq_zero (by rw [hlen]; simpa using hl))
  have hmapne : (supply.zip demand).map
      (fun p => if p.1 ≥ p.2 then (0:ℚ) else 1) ≠ [] := by
    simpa using hznil
  have hnn : ∀ x ∈ (supply.zip demand).map
      (fun p => if p.1 ≥ p.2 then (0:ℚ) else 1), 0 ≤ x := by
    intro x hx
    rw [List.mem_map] at hx
    obtain ⟨p, -, rfl⟩ := hx
    split_ifs <;> norm_num
  have hle1 : ∀ x ∈ (supply.zip demand).map
      (fun p => if p.1 ≥ p.2 then (0:ℚ) else 1), x ≤ 1 := by
    intro x hx
    rw [List.mem_map] at hx
    obtain ⟨p, -, rfl⟩ := hx
    split_ifs <;> norm_num
  refine ⟨⟨mean_nonneg hnn, mean_le_one hle1⟩, ?_⟩
  unfold reliability
  rw [mean_eq_zero_iff hnn hmapne]
  constructor
  · intro h p hp
    have h0 := h _ (List.mem_map_of_mem _ hp)
    by_contra hlt
    rw [if_neg (by simpa using hlt)] at h0
    norm_num at h0
  · intro h x hx
    rw [List.mem_map] at hx
    obtain ⟨p, hp, rfl⟩ := hx
    rw [if_pos (h p hp)]

/-- C6 witness: the statement applied to `supply = [1]`, `demand = [1]`. -/
theorem reliability_spec_witness :
    0 ≤ reliability [1] [1] ∧ reliability [1] [1] ≤ 1 :=
  (reliability_spec [1] [1] rfl (by simp)).1

/-- C7: for every nonempty list of objective vectors (with a population of
the same length), some candidate has domination count 0, and the index
`parents_selection` computes for `parent_1` — the first index of count 0 —
is within the population's range, so that lookup never indexes out of
range. -/
theorem front_zero_nonempty (objectives : List (ℚ × ℚ)) (population : List (List ℚ))
    (hne : objectives ≠ []) (hlen : population.length = objectives.length) :
    (∃ o ∈ objectives, domination_count objectives o = 0) ∧
      (objectives.map (fun o => domination_count objectives o)).findIdx
        (fun c => c == 0) < population.length := by
  obtain ⟨o, ho, hzero⟩ := exists_domination_count_zero objectives hne
  refine ⟨⟨o, ho, hzero⟩, ?_⟩
  have hmem : (0:ℕ) ∈ objectives.map (fun o => domination_count objectives o) := by
    rw [List.mem_map]
    exact ⟨o, ho, hzero⟩
  have hlt := List.findIdx_lt_length_of_exists (p := fun c => c == 0)
    ⟨0, hmem, by simp⟩
  rw [hlen]
  simpa using hlt

/-- C7 witness: the statement applied to the one-element population
`[[5]]` with objectives `[(1, 2)]`. -/
theorem front_zero_nonempty_witness :
    ([((1:ℚ), (2:ℚ))].map
      (fun o => domination_count [((1:ℚ), (2:ℚ))] o)).findIdx
        (fun c => c == 0) < [[(5:ℚ)]].length :=
  (front_zero_nonempty [(1, 2)] [[5]] (by simp) rfl).2

/-- C8: the `dominates` relation is irreflexive and asymmetric: no
objective vector dominates itself, and two vectors never dominate each
other simultaneously. -/
theorem dominates_irrefl_asymm :
    ∀ a b : ℚ × ℚ, dominates a a = false ∧
      (dominates a b && dominates b a) = false := by
  intro a b
  refine ⟨dominates_self_eq_false a, ?_⟩
  cases hab : dominates a b with
  | false => simp
  | true => simp [dominates_asymm_false hab]

/-- C9 counterexample: running `gen_opt` for one generation on the
size-4 population `P0` does not return the initial population: the source
has no crossover or mutation probability to set to 0, and one generation
unconditionally replaces the population with the two selected parents and
their six crossover children. -/
theorem gen_opt_one_generation_changes_population :
    (gen_opt inflow evap demand 80 150 30 2 4 1 P0).map Prod.fst ≠ some P0 := by
  rw [gen_opt_run]
  intro h
  have h2 : some pop1 = some P0 := h
  have h3 : pop1 = P0 := Option.some.inj h2
  have h4 : pop1.length = P0.length := congrArg List.length h3
  simp [pop1, P0] at h4

/-- C9 amended: one generation of `gen_opt` on the size-4 population `P0`
returns the eight-row crossover stack of the two selected parents together
with the objective vectors of the initial population — not the initial
population, which the optimiser cannot return unchanged since it applies
crossover unconditionally (it has no variation probabilities). -/
theorem gen_opt_one_generation_result :
    gen_opt inflow evap demand 80 150 30 2 4 1 P0 = some (pop1, objs0) :=
  gen_opt_run

/-- C10: `res_sim` writes the clamped releases through its `supply`
argument and returns that same array, so after the call the caller's
candidate vector holds the realized supply; in the end-to-end scenario
that content differs from the original candidate (week 8 is clamped from
26 to 7), which is therefore no longer recoverable from the argument. -/
theorem res_sim_overwrites_supply_argument :
    res_sim_supplyArgAfter inflow evap demand 80 150 2 demand =
        (res_sim inflow evap demand 80 150 2 demand).supply ∧
      res_sim_supplyArgAfter inflow evap demand 80 150 2 demand ≠ demand := by
  refine ⟨rfl, ?_⟩
  rw [res_sim_supplyArgAfter, scenario_run]
  intro h
  have h4 := congrArg (fun l => List.getD l 7 0) h
  norm_num [demand] at h4

end MHA
